import Mathlib

/-!
Verification of the offline-write durability and synchronization subsystem of
the StoryApp repository (src/services/offlineService.ts and the offline path of
src/services/storyService.ts), shallowly embedded in Lean 4.

Modelling conventions:
* The durable pending-story collection (the single JSON blob stored under the
  `pending_stories` AsyncStorage key) is a `List PendingStory`; every
  AsyncStorage read-modify-write in the source becomes a pure function from
  store to store.
* Remote Firestore writes (`addDoc`) are nondeterministic in the source; each
  drain takes an oracle `String → Bool` giving the outcome of the remote write
  attempt for a given pending entry id (`true` = the `addDoc` promise resolves,
  `false` = it rejects).
* `Date.now()` and `Math.random()` are passed in as explicit parameters
  (`now : Nat`, `rand : String`).
* Thrown JS errors are `Except JsError` values; `JsError` carries the
  `code`/`message` fields the source inspects.
-/

namespace StoryApp

/-- The `code`/`message` shape of errors thrown and inspected by the services
(`ServiceError` in src/types/index.ts, and Firestore errors whose `code` and
`message` fields `createStory` inspects). -/
structure JsError where
  code : String
  message : String
deriving DecidableEq, Repr

/-- Type LocationData from src/types/index.ts (numeric fields as integers; no
claim inspects their values, they are only carried). -/
structure LocationData where
  latitude : Int
  longitude : Int
  accuracy : Int
  timestamp : Int
deriving DecidableEq, Repr

/-- Type StoryCreateData from src/types/index.ts: the opaque creation payload. -/
structure StoryCreateData where
  title : String
  content : String
  category : String
  categoryId : String
  location : Option LocationData
deriving DecidableEq, Repr

/-- Type PendingStory from src/types/index.ts. -/
structure PendingStory where
  id : String
  storyData : StoryCreateData
  timestamp : Nat
  retryCount : Nat
deriving DecidableEq, Repr

/-- The durable pending collection stored under the `pending_stories` key. -/
abbrev Store := List PendingStory

/-- Constant MAX_RETRY_COUNT from src/services/offlineService.ts line 15. -/
def MAX_RETRY_COUNT : Nat := 3

/-- Type NetworkStatus from src/types/index.ts. -/
structure NetworkStatus where
  isConnected : Bool
  isInternetReachable : Bool
deriving DecidableEq, Repr

/-- The two nullable fields of the NetInfo state that the service reads
(`netInfo.isConnected`, `netInfo.isInternetReachable`; `null` = `none`). -/
structure NetInfoState where
  isConnected : Option Bool
  isInternetReachable : Option Bool
deriving DecidableEq, Repr

/-! ## PendingWriteStore operations (offlineService.ts) -/

/-- The id built at offlineService.ts line 137:
`pending_${Date.now()}_${Math.random().toString(36).substr(2, 9)}`. -/
def pendingIdOf (now : Nat) (rand : String) : String :=
  "pending_" ++ (toString now ++ "_" ++ rand)

/-- Function addPendingStory (offlineService.ts lines 133-156): reads the collection,
pushes a fresh entry with `retryCount = 0`, persists, and returns the new id.
Returns the id together with the updated store. -/
def addPendingStory (now : Nat) (rand : String) (storyData : StoryCreateData)
    (s : Store) : String × Store :=
  let ps : PendingStory :=
    { id := pendingIdOf now rand, storyData := storyData,
      timestamp := now, retryCount := 0 }
  (ps.id, s ++ [ps])

/-- Function removePendingStory (offlineService.ts lines 163-178): reads the
collection, keeps every entry whose id differs (`filter story.id !== id`),
persists the result. -/
def removePendingStory (id : String) (s : Store) : Store :=
  s.filter (fun story => story.id ≠ id)

/-- The retry-increment performed in the per-entry catch block of
`syncPendingStories` (offlineService.ts lines 248-253): re-read the
collection, `find` the first entry with the id, bump its `retryCount` in
place, persist the whole list; if the entry is gone, change nothing. -/
def incrementRetryOf (id : String) : Store → Store
  | [] => []
  | story :: rest =>
    if story.id = id then
      { story with retryCount := story.retryCount + 1 } :: rest
    else
      story :: incrementRetryOf id rest

/-! ## The drain (syncPendingStories, offlineService.ts lines 202-268) -/

/-- Result of one drain pass: the final store plus the per-entry observable
outcomes. `attempts` records each remote `addDoc` call (line 238) by entry id;
`succeeded`, `retried` and `dropped` record the per-entry outcome reporting of
the source (the logs at lines 242, 245 and 217 respectively). -/
structure DrainState where
  store : Store
  attempts : List String
  succeeded : List String
  retried : List String
  dropped : List String
deriving DecidableEq, Repr

/-- Processing of one snapshot entry inside `syncPendingStories`
(offlineService.ts lines 213-255): an entry whose snapshot `retryCount` has
reached `MAX_RETRY_COUNT` is removed with no remote attempt (lines 216-220);
otherwise `addDoc` is attempted (line 238); on success the entry is removed
(line 241); on rejection the per-entry catch increments its retry count
(lines 244-254). -/
def processEntry (oracle : String → Bool) (ds : DrainState)
    (e : PendingStory) : DrainState :=
  if MAX_RETRY_COUNT ≤ e.retryCount then
    { ds with store := removePendingStory e.id ds.store,
              dropped := ds.dropped ++ [e.id] }
  else if oracle e.id then
    { ds with store := removePendingStory e.id ds.store,
              attempts := ds.attempts ++ [e.id],
              succeeded := ds.succeeded ++ [e.id] }
  else
    { ds with store := incrementRetryOf e.id ds.store,
              attempts := ds.attempts ++ [e.id],
              retried := ds.retried ++ [e.id] }

/-- Function syncPendingStories (offlineService.ts lines 202-268): snapshot the
collection (line 204), then process every snapshot entry; per-entry errors are
caught inside each entry's handler so every entry is processed regardless of
the others' outcomes (`Promise.allSettled`, line 257). Entries are modelled in
snapshot order, each entry's storage operations atomic. -/
def syncPendingStories (oracle : String → Bool) (s : Store) : DrainState :=
  s.foldl (processEntry oracle)
    { store := s, attempts := [], succeeded := [], retried := [], dropped := [] }

/-- A sequence of drains (e.g. successive reconnection events), one outcome
oracle per drain; returns the final store and the concatenated remote-attempt
trace. -/
def drainSequence : List (String → Bool) → Store → Store × List String
  | [], s => (s, [])
  | o :: os, s =>
    let d := syncPendingStories o s
    let r := drainSequence os d.store
    (r.1, d.attempts ++ r.2)

/-- The unguarded concurrent execution of two drain calls (a reconnection
drain plus `forceSyncPendingStories`, offlineService.ts lines 296-299, which
calls `syncPendingStories` with no single-flight guard), under the schedule
in which both calls' `getPendingStories` reads (line 204) resolve before
either call processes its snapshot: both snapshots equal the initial store,
then the first call's entry processing runs, then the second call's.
Attempt/outcome traces accumulate across both calls. -/
def twoConcurrentDrains (o1 o2 : String → Bool) (s : Store) : DrainState :=
  let snapshot1 := s
  let snapshot2 := s
  let d1 := snapshot1.foldl (processEntry o1)
    { store := s, attempts := [], succeeded := [], retried := [], dropped := [] }
  snapshot2.foldl (processEntry o2) d1

/-! ## Connectivity (offlineService.ts lines 56-105) -/

/-- The status value handed to every listener by `notifyNetworkListeners`
(offlineService.ts lines 56-63) and by the immediate call in
`subscribeToNetworkStatus` (lines 74-77): both fields are the cached
`isConnected` flag. -/
def listenerStatus (connected : Bool) : NetworkStatus :=
  { isConnected := connected, isInternetReachable := connected }

/-- The `try` body of `getNetworkStatus` (offlineService.ts lines 92-97):
probe NetInfo and coerce each nullable field with `|| false`. -/
def getNetworkStatusTry (probe : Except JsError NetInfoState) :
    Except JsError NetworkStatus :=
  probe.map fun st =>
    { isConnected := st.isConnected.getD false,
      isInternetReachable := st.isInternetReachable.getD false }

/-- Function getNetworkStatus (offlineService.ts lines 91-105): the catch block
returns `{isConnected: false, isInternetReachable: false}` on any probe
error, so the caller always receives a status. -/
def getNetworkStatus (probe : Except JsError NetInfoState) : NetworkStatus :=
  match getNetworkStatusTry probe with
  | .ok st => st
  | .error _ => { isConnected := false, isInternetReachable := false }

/-- The listener registry (`networkListeners`); JS function identity is
modelled by a token. -/
abbrev Registry := List Nat

/-- Function subscribeToNetworkStatus (offlineService.ts lines 70-85): push the
listener, then invoke it once immediately with the current status. Returns
the new registry and the list of listener invocations this call performs. -/
def subscribeToNetworkStatus (l : Nat) (st : Registry) (connected : Bool) :
    Registry × List (Nat × NetworkStatus) :=
  (st ++ [l], [(l, listenerStatus connected)])

/-- Function notifyNetworkListeners (offlineService.ts lines 56-63): invoke every
registered listener with the current status. -/
def notifyNetworkListeners (st : Registry) (connected : Bool) :
    List (Nat × NetworkStatus) :=
  st.map fun l => (l, listenerStatus connected)

/-- The unsubscribe closure returned by `subscribeToNetworkStatus`
(offlineService.ts lines 79-84): `indexOf` the listener and `splice` out that
single occurrence; if absent (`indexOf` returns -1), do nothing. -/
def unsubscribeOnce (l : Nat) (st : Registry) : Registry :=
  st.erase l

/-! ## createStory (storyService.ts lines 96-145) -/

/-- JS `String.prototype.includes`, on character lists. -/
def charsHaveLead : List Char → List Char → Bool
  | [], _ => true
  | _ :: _, [] => false
  | p :: ps, c :: cs => p == c && charsHaveLead ps cs

/-- Whether `pat` occurs as a contiguous substring of `s`
(JS `s.includes(pat)`). -/
def strIncludes (s pat : String) : Bool :=
  go pat.data s.data
where
  go (pat : List Char) : List Char → Bool
    | [] => pat.isEmpty
    | c :: cs => charsHaveLead pat (c :: cs) || go pat cs

/-- The fallback test in `createStory`'s catch block (storyService.ts line
129): `error.code === 'unavailable' || error.message?.includes('network')`. -/
def isNetworkFallbackError (e : JsError) : Bool :=
  e.code == "unavailable" || strIncludes e.message "network"

/-- Function addPendingStory including its storage failure mode (offlineService.ts
lines 148-155): on an AsyncStorage error it throws a `STORAGE_ERROR`
`ServiceError`; `storageOk` says whether the underlying storage operations
succeed. -/
def addPendingStoryEx (storageOk : Bool) (now : Nat) (rand : String)
    (storyData : StoryCreateData) (s : Store) : Except JsError (String × Store) :=
  if storageOk then .ok (addPendingStory now rand storyData s)
  else .error { code := "STORAGE_ERROR", message := "Failed to save story offline" }

/-- Function createStory (storyService.ts lines 96-145). Parameters model the
environment: `offline` is `offlineService.isOffline()`; `remote` is the
outcome of the direct `addDoc` (the `docRef.id` on success); `storageOk`,
`now`, `rand` feed `addPendingStory`. Returns the caller's handle together
with the resulting pending store, or the thrown error. The catch block falls
back to `addPendingStory` only when `isNetworkFallbackError` holds (lines
129-137), and otherwise — or when the fallback itself fails — throws
`FIRESTORE_ERROR` (lines 139-143). -/
def createStory (offline : Bool) (remote : Except JsError String)
    (storageOk : Bool) (now : Nat) (rand : String)
    (storyData : StoryCreateData) (s : Store) : Except JsError (String × Store) :=
  let tryBody : Except JsError (String × Store) :=
    if offline then addPendingStoryEx storageOk now rand storyData s
    else remote.map fun rid => (rid, s)
  match tryBody with
  | .ok r => .ok r
  | .error e =>
    if isNetworkFallbackError e then
      match addPendingStoryEx storageOk now rand storyData s with
      | .ok r => .ok r
      | .error _ =>
        .error { code := "FIRESTORE_ERROR",
                 message := "Failed to create story in database" }
    else
      .error { code := "FIRESTORE_ERROR",
               message := "Failed to create story in database" }

/-! ## Concrete sample data for counterexamples and witnesses -/

/-- A concrete payload. -/
def samplePayload : StoryCreateData :=
  { title := "t", content := "c", category := "cat", categoryId := "1",
    location := none }

/-- A concrete pending entry with a given id and retry count. -/
def sampleEntry (id : String) (rc : Nat) : PendingStory :=
  { id := id, storyData := samplePayload, timestamp := 0, retryCount := rc }

end StoryApp

/-! # General lemmas about the drain -/

namespace StoryApp

/-- Remote attempts made by a drain fold: exactly the snapshot entries whose
snapshot retry count is below the ceiling, in snapshot order, regardless of
the remote outcomes. -/
theorem foldl_attempts (o : String → Bool) (snap : List PendingStory) :
    ∀ ds : DrainState,
      (snap.foldl (processEntry o) ds).attempts
        = ds.attempts
          ++ ((snap.filter fun e => decide (e.retryCount < MAX_RETRY_COUNT)).map
                fun e => e.id) := by
  induction snap with
  | nil => intro ds; simp
  | cons e tl ih =>
    intro ds
    by_cases hle : MAX_RETRY_COUNT ≤ e.retryCount
    · have hlt : ¬ e.retryCount < MAX_RETRY_COUNT := Nat.not_lt.mpr hle
      simp [processEntry, hle, hlt, ih]
    · have hlt : e.retryCount < MAX_RETRY_COUNT := Nat.lt_of_not_le hle
      by_cases ho : o e.id
      all_goals simp [processEntry, hle, hlt, ho, ih]

/-- Successful syncs reported by a drain fold: the snapshot entries below the
ceiling whose remote write resolves. -/
theorem foldl_succeeded (o : String → Bool) (snap : List PendingStory) :
    ∀ ds : DrainState,
      (snap.foldl (processEntry o) ds).succeeded
        = ds.succeeded
          ++ ((snap.filter fun e =>
                decide (e.retryCount < MAX_RETRY_COUNT) && o e.id).map
                fun e => e.id) := by
  induction snap with
  | nil => intro ds; simp
  | cons e tl ih =>
    intro ds
    by_cases hle : MAX_RETRY_COUNT ≤ e.retryCount
    · have hlt : ¬ e.retryCount < MAX_RETRY_COUNT := Nat.not_lt.mpr hle
      simp [processEntry, hle, hlt, ih]
    · have hlt : e.retryCount < MAX_RETRY_COUNT := Nat.lt_of_not_le hle
      by_cases ho : o e.id
      all_goals simp [processEntry, hle, hlt, ho, ih]

/-- Retried entries reported by a drain fold: the snapshot entries below the
ceiling whose remote write rejects. -/
theorem foldl_retried (o : String → Bool) (snap : List PendingStory) :
    ∀ ds : DrainState,
      (snap.foldl (processEntry o) ds).retried
        = ds.retried
          ++ ((snap.filter fun e =>
                decide (e.retryCount < MAX_RETRY_COUNT) && !(o e.id)).map
                fun e => e.id) := by
  induction snap with
  | nil => intro ds; simp
  | cons e tl ih =>
    intro ds
    by_cases hle : MAX_RETRY_COUNT ≤ e.retryCount
    · have hlt : ¬ e.retryCount < MAX_RETRY_COUNT := Nat.not_lt.mpr hle
      simp [processEntry, hle, hlt, ih]
    · have hlt : e.retryCount < MAX_RETRY_COUNT := Nat.lt_of_not_le hle
      by_cases ho : o e.id
      all_goals simp [processEntry, hle, hlt, ho, ih]

/-- Dropped entries reported by a drain fold: exactly the snapshot entries at
or above the ceiling, none of which is attempted. -/
theorem foldl_dropped (o : String → Bool) (snap : List PendingStory) :
    ∀ ds : DrainState,
      (snap.foldl (processEntry o) ds).dropped
        = ds.dropped
          ++ ((snap.filter fun e => decide (MAX_RETRY_COUNT ≤ e.retryCount)).map
                fun e => e.id) := by
  induction snap with
  | nil => intro ds; simp
  | cons e tl ih =>
    intro ds
    by_cases hle : MAX_RETRY_COUNT ≤ e.retryCount
    · simp [processEntry, hle, ih]
    · by_cases ho : o e.id
      all_goals simp [processEntry, hle, ho, ih]

/-- The fate of a single snapshot entry under one drain: dropped (at the
ceiling) or synced (remote resolves) entries disappear; a failed entry stays
with its retry count incremented. Specification artifact used to characterize
the drain's effect on the store. -/
def entryFate (o : String → Bool) (e : PendingStory) : Option PendingStory :=
  if MAX_RETRY_COUNT ≤ e.retryCount then none
  else if o e.id then none
  else some { e with retryCount := e.retryCount + 1 }

theorem entryFate_id (o : String → Bool) (e y : PendingStory)
    (h : entryFate o e = some y) : y.id = e.id := by
  unfold entryFate at h
  split at h
  · exact absurd h (by simp)
  · split at h
    · exact absurd h (by simp)
    · cases h; rfl

theorem incrementRetryOf_append (id : String) (pre l : Store)
    (h : ∀ p ∈ pre, p.id ≠ id) :
    incrementRetryOf id (pre ++ l) = pre ++ incrementRetryOf id l := by
  induction pre with
  | nil => rfl
  | cons p pre ih =>
    have hp : p.id ≠ id := h p (by simp)
    simp only [List.cons_append, incrementRetryOf, if_neg hp, List.append_eq]
    rw [ih (fun q hq => h q (by simp [hq]))]

theorem incrementRetryOf_cons_self (e : PendingStory) (l : Store) :
    incrementRetryOf e.id (e :: l)
      = { e with retryCount := e.retryCount + 1 } :: l := by
  simp [incrementRetryOf]

theorem removePendingStory_of_all_ne (id : String) (l : Store)
    (h : ∀ p ∈ l, p.id ≠ id) : removePendingStory id l = l := by
  unfold removePendingStory
  exact List.filter_eq_self.mpr (fun p hp => by simpa using h p hp)

theorem removePendingStory_append_cons (e : PendingStory) (pre l : Store)
    (hpre : ∀ p ∈ pre, p.id ≠ e.id) (hl : ∀ p ∈ l, p.id ≠ e.id) :
    removePendingStory e.id (pre ++ e :: l) = pre ++ l := by
  unfold removePendingStory
  rw [List.filter_append, List.filter_cons]
  simp only [decide_not]
  rw [List.filter_eq_self.mpr (fun p hp => by simpa using hpre p hp),
      List.filter_eq_self.mpr (fun p hp => by simpa using hl p hp)]
  simp

/-- Effect of a drain fold on the store, for a store whose pending ids are
pairwise distinct: a prefix of entries with ids foreign to the snapshot is
untouched, and each snapshot entry independently meets its fate. -/
theorem foldl_store (o : String → Bool) :
    ∀ (snap : List PendingStory) (pre : Store) (ds : DrainState),
      ds.store = pre ++ snap →
      (∀ p ∈ pre, ∀ e ∈ snap, p.id ≠ e.id) →
      ((snap.map fun e => e.id).Nodup) →
      (snap.foldl (processEntry o) ds).store
        = pre ++ snap.filterMap (entryFate o) := by
  intro snap
  induction snap with
  | nil => intro pre ds hds _ _; simpa using hds
  | cons e tl ih =>
    intro pre ds hds hdisj hnd
    have hpre : ∀ p ∈ pre, p.id ≠ e.id := fun p hp => hdisj p hp e (by simp)
    have hnotl : e.id ∉ tl.map fun x => x.id := by
      have := hnd
      simp only [List.map_cons, List.nodup_cons] at this
      exact this.1
    have htl : ∀ p ∈ tl, p.id ≠ e.id := by
      intro p hp hcontra
      exact hnotl (by exact hcontra ▸ List.mem_map_of_mem _ hp)
    have hndtl : (tl.map fun x => x.id).Nodup := by
      have := hnd
      simp only [List.map_cons, List.nodup_cons] at this
      exact this.2
    have hdisjtl : ∀ p ∈ pre, ∀ x ∈ tl, p.id ≠ x.id :=
      fun p hp x hx => hdisj p hp x (by simp [hx])
    simp only [List.foldl_cons]
    by_cases hle : MAX_RETRY_COUNT ≤ e.retryCount
    · have hstep : (processEntry o ds e).store = pre ++ tl := by
        simp only [processEntry, if_pos hle]
        rw [hds, removePendingStory_append_cons e pre tl hpre htl]
      rw [ih pre _ hstep hdisjtl hndtl]
      have hfate : entryFate o e = none := by simp [entryFate, hle]
      simp [hfate]
    · by_cases ho : o e.id
      · have hstep : (processEntry o ds e).store = pre ++ tl := by
          simp only [processEntry, if_neg hle, if_pos ho]
          rw [hds, removePendingStory_append_cons e pre tl hpre htl]
        rw [ih pre _ hstep hdisjtl hndtl]
        have hfate : entryFate o e = none := by simp [entryFate, hle, ho]
        simp [hfate]
      · have hstep : (processEntry o ds e).store
            = (pre ++ [{ e with retryCount := e.retryCount + 1 }]) ++ tl := by
          simp only [processEntry, if_neg hle, if_neg ho]
          rw [hds, incrementRetryOf_append e.id pre (e :: tl) hpre,
              incrementRetryOf_cons_self]
          simp
        have hdisj' : ∀ p ∈ pre ++ [{ e with retryCount := e.retryCount + 1 }],
            ∀ x ∈ tl, p.id ≠ x.id := by
          intro p hp x hx
          rcases List.mem_append.mp hp with hp | hp
          · exact hdisjtl p hp x hx
          · have : p = { e with retryCount := e.retryCount + 1 } := by simpa using hp
            subst this
            exact fun hcontra => (htl x hx) hcontra.symm
        rw [ih (pre ++ [{ e with retryCount := e.retryCount + 1 }]) _ hstep hdisj' hndtl]
        have hfate : entryFate o e
            = some { e with retryCount := e.retryCount + 1 } := by
          simp [entryFate, hle, ho]
        simp [hfate]

/-- Final store of a drain over a store with pairwise-distinct ids: each entry
independently dropped, removed on success, or kept with an incremented retry
count on failure. -/
theorem syncPendingStories_store (o : String → Bool) (s : Store)
    (h : (s.map fun e => e.id).Nodup) :
    (syncPendingStories o s).store = s.filterMap (entryFate o) := by
  have := foldl_store o s []
    { store := s, attempts := [], succeeded := [], retried := [], dropped := [] }
    (by simp) (by simp) h
  simpa [syncPendingStories] using this

theorem mem_filterMap_fate_id (o : String → Bool) (l : Store)
    (y : PendingStory) (h : y ∈ l.filterMap (entryFate o)) :
    y.id ∈ l.map fun x => x.id := by
  rcases List.mem_filterMap.mp h with ⟨x, hx, hfx⟩
  rw [entryFate_id o x y hfx]
  exact List.mem_map_of_mem _ hx

/-- After a drain restricted to one id: the id's surviving entries are exactly
the fate of the unique entry carrying it. -/
theorem filterMap_fate_filter_id (o : String → Bool) :
    ∀ (l : Store) (e : PendingStory),
      ((l.map fun x => x.id).Nodup) → e ∈ l →
      ((l.filterMap (entryFate o)).filter fun x => x.id = e.id)
        = (entryFate o e).toList := by
  intro l
  induction l with
  | nil => intro e _ h; cases h
  | cons a tl ih =>
    intro e hnd hmem
    have hnotl : a.id ∉ tl.map fun x => x.id := by
      simp only [List.map_cons, List.nodup_cons] at hnd
      exact hnd.1
    have hndtl : (tl.map fun x => x.id).Nodup := by
      simp only [List.map_cons, List.nodup_cons] at hnd
      exact hnd.2
    have htl_ne : ∀ y ∈ tl.filterMap (entryFate o), y.id ≠ a.id := by
      intro y hy hcontra
      exact hnotl (hcontra ▸ mem_filterMap_fate_id o tl y hy)
    rcases List.mem_cons.mp hmem with hea | hetl
    · subst hea
      have htl_filter : ((tl.filterMap (entryFate o)).filter
          fun x => x.id = e.id) = [] := by
        rw [List.filter_eq_nil_iff]
        intro y hy
        simpa using htl_ne y hy
      cases hfe : entryFate o e with
      | none => simp [List.filterMap_cons, hfe, htl_filter]
      | some y =>
        have hyid : y.id = e.id := entryFate_id o e y hfe
        simp [List.filterMap_cons, hfe, List.filter_cons, hyid, htl_filter]
    · have haid : a.id ≠ e.id := by
        intro hcontra
        exact hnotl (hcontra ▸ List.mem_map_of_mem _ hetl)
      cases hfa : entryFate o a with
      | none => simpa [List.filterMap_cons, hfa] using ih e hndtl hetl
      | some y =>
        have hyid : y.id = a.id := entryFate_id o a y hfa
        have : (y.id = e.id) = False := by
          simp [hyid]; exact haid
        simp [List.filterMap_cons, hfa, List.filter_cons, hyid, haid,
              ih e hndtl hetl]

theorem filterMap_fate_ids_sublist (o : String → Bool) (l : Store) :
    List.Sublist ((l.filterMap (entryFate o)).map fun x => x.id)
      (l.map fun x => x.id) := by
  induction l with
  | nil => simp
  | cons a tl ih =>
    cases hfa : entryFate o a with
    | none =>
      simp only [List.filterMap_cons, hfa, List.map_cons]
      exact ih.cons _
    | some y =>
      have hyid : y.id = a.id := entryFate_id o a y hfa
      simp only [List.filterMap_cons, hfa, List.map_cons, hyid]
      exact ih.cons₂ _

/-- Pairwise-distinct pending ids are preserved by a drain. -/
theorem syncPendingStories_store_nodup (o : String → Bool) (s : Store)
    (h : (s.map fun e => e.id).Nodup) :
    (((syncPendingStories o s).store.map fun e => e.id)).Nodup := by
  rw [syncPendingStories_store o s h]
  exact (filterMap_fate_ids_sublist o s).nodup h

theorem mem_incrementRetryOf (id : String) :
    ∀ (l : Store) (x : PendingStory), x ∈ incrementRetryOf id l →
      x ∈ l ∨ ∃ y ∈ l, x = { y with retryCount := y.retryCount + 1 } := by
  intro l
  induction l with
  | nil => intro x hx; cases hx
  | cons a tl ih =>
    intro x hx
    by_cases ha : a.id = id
    · simp only [incrementRetryOf, if_pos ha] at hx
      rcases List.mem_cons.mp hx with hx | hx
      · exact Or.inr ⟨a, by simp, hx⟩
      · exact Or.inl (List.mem_cons_of_mem _ hx)
    · simp only [incrementRetryOf, if_neg ha] at hx
      rcases List.mem_cons.mp hx with hx | hx
      · exact Or.inl (hx ▸ List.mem_cons_self _ _)
      · rcases ih x hx with hx | ⟨y, hy, hxy⟩
        · exact Or.inl (List.mem_cons_of_mem _ hx)
        · exact Or.inr ⟨y, List.mem_cons_of_mem _ hy, hxy⟩

/-- Any store predicate that survives a retry-count increment is preserved by
the drain fold (store entries are only ever removed or incremented). -/
theorem foldl_store_pred (P : PendingStory → Prop)
    (hP : ∀ y, P y → P { y with retryCount := y.retryCount + 1 })
    (o : String → Bool) :
    ∀ (snap : List PendingStory) (ds : DrainState),
      (∀ x ∈ ds.store, P x) →
      ∀ x ∈ (snap.foldl (processEntry o) ds).store, P x := by
  intro snap
  induction snap with
  | nil => intro ds h; simpa using h
  | cons e tl ih =>
    intro ds h
    apply ih
    intro x hx
    unfold processEntry at hx
    split at hx
    · exact h x (List.mem_of_mem_filter hx)
    · split at hx
      · exact h x (List.mem_of_mem_filter hx)
      · rcases mem_incrementRetryOf e.id ds.store x hx with hx | ⟨y, hy, hxy⟩
        · exact h x hx
        · exact hxy ▸ hP y (h y hy)

/-- An id whose every store occurrence is at the retry ceiling is never
attempted by a drain. -/
theorem no_attempt_of_exhausted (o : String → Bool) (s : Store) (id : String)
    (h : ∀ x ∈ s, x.id = id → MAX_RETRY_COUNT ≤ x.retryCount) :
    id ∉ (syncPendingStories o s).attempts := by
  have hchar := foldl_attempts o s
    { store := s, attempts := [], succeeded := [], retried := [], dropped := [] }
  intro hmem
  rw [syncPendingStories] at hmem
  rw [hchar] at hmem
  simp only [List.nil_append, List.mem_map, List.mem_filter,
    decide_eq_true_eq] at hmem
  rcases hmem with ⟨x, ⟨hxs, hxlt⟩, hxid⟩
  exact absurd (h x hxs hxid) (Nat.not_le.mpr hxlt)

/-- The exhausted-id property is preserved by a drain. -/
theorem exhausted_preserved (o : String → Bool) (s : Store) (id : String)
    (h : ∀ x ∈ s, x.id = id → MAX_RETRY_COUNT ≤ x.retryCount) :
    ∀ x ∈ (syncPendingStories o s).store,
      x.id = id → MAX_RETRY_COUNT ≤ x.retryCount := by
  have := foldl_store_pred
    (P := fun x => x.id = id → MAX_RETRY_COUNT ≤ x.retryCount)
    (fun y hy hid => Nat.le_succ_of_le (hy hid)) o s
    { store := s, attempts := [], succeeded := [], retried := [], dropped := [] }
    h
  exact this

/-- An exhausted id is never attempted by any later sequence of drains. -/
theorem drainSequence_no_attempt (id : String) :
    ∀ (os : List (String → Bool)) (s : Store),
      (∀ x ∈ s, x.id = id → MAX_RETRY_COUNT ≤ x.retryCount) →
      id ∉ (drainSequence os s).2 := by
  intro os
  induction os with
  | nil => intro s _; simp [drainSequence]
  | cons o os ih =>
    intro s h
    simp only [drainSequence, List.mem_append]
    intro hmem
    rcases hmem with hmem | hmem
    · exact no_attempt_of_exhausted o s id h hmem
    · exact ih _ (exhausted_preserved o s id h) hmem

theorem syncPendingStories_attempts (o : String → Bool) (s : Store) :
    (syncPendingStories o s).attempts
      = ((s.filter fun e => decide (e.retryCount < MAX_RETRY_COUNT)).map
          fun e => e.id) := by
  have := foldl_attempts o s
    { store := s, attempts := [], succeeded := [], retried := [], dropped := [] }
  simpa [syncPendingStories] using this

theorem syncPendingStories_succeeded (o : String → Bool) (s : Store) :
    (syncPendingStories o s).succeeded
      = ((s.filter fun e =>
            decide (e.retryCount < MAX_RETRY_COUNT) && o e.id).map
          fun e => e.id) := by
  have := foldl_succeeded o s
    { store := s, attempts := [], succeeded := [], retried := [], dropped := [] }
  simpa [syncPendingStories] using this

theorem syncPendingStories_retried (o : String → Bool) (s : Store) :
    (syncPendingStories o s).retried
      = ((s.filter fun e =>
            decide (e.retryCount < MAX_RETRY_COUNT) && !(o e.id)).map
          fun e => e.id) := by
  have := foldl_retried o s
    { store := s, attempts := [], succeeded := [], retried := [], dropped := [] }
  simpa [syncPendingStories] using this

theorem syncPendingStories_dropped (o : String → Bool) (s : Store) :
    (syncPendingStories o s).dropped
      = ((s.filter fun e => decide (MAX_RETRY_COUNT ≤ e.retryCount)).map
          fun e => e.id) := by
  have := foldl_dropped o s
    { store := s, attempts := [], succeeded := [], retried := [], dropped := [] }
  simpa [syncPendingStories] using this

end StoryApp

/-! # Claim theorems -/

namespace StoryApp

/-- C4: for a store with three pending entries at retry counts 0, 2 and 3
(ceiling 3), one drain in which the remote store fails the first entry and
succeeds the second leaves the first queued with retry count 1, removes the
second, removes the third without any remote attempt, and leaves exactly one
pending entry. -/
theorem claim_C4_three_entry_scenario :
    ((syncPendingStories (fun i => i == "b")
        [sampleEntry "a" 0, sampleEntry "b" 2, sampleEntry "c" 3]).store
      = [sampleEntry "a" 1])
    ∧ ((syncPendingStories (fun i => i == "b")
        [sampleEntry "a" 0, sampleEntry "b" 2, sampleEntry "c" 3]).store.length
      = 1)
    ∧ ((syncPendingStories (fun i => i == "b")
        [sampleEntry "a" 0, sampleEntry "b" 2, sampleEntry "c" 3]).attempts
      = ["a", "b"])
    ∧ ("c" ∉ (syncPendingStories (fun i => i == "b")
        [sampleEntry "a" 0, sampleEntry "b" 2, sampleEntry "c" 3]).attempts)
    ∧ ((syncPendingStories (fun i => i == "b")
        [sampleEntry "a" 0, sampleEntry "b" 2, sampleEntry "c" 3]).succeeded
      = ["b"])
    ∧ ((syncPendingStories (fun i => i == "b")
        [sampleEntry "a" 0, sampleEntry "b" 2, sampleEntry "c" 3]).retried
      = ["a"])
    ∧ ((syncPendingStories (fun i => i == "b")
        [sampleEntry "a" 0, sampleEntry "b" 2, sampleEntry "c" 3]).dropped
      = ["c"]) := by
  decide

/-- C6: per-entry isolation and outcome reporting of the drain. Which entries
are attempted is fully determined by the snapshot (every entry below the
ceiling, in order) and is unchanged under any assignment of per-entry remote
failures, so one entry's failure never prevents another entry's attempt; and
the drain yields a per-entry outcome report in which every snapshot entry is
listed by id as succeeded, retried or dropped. The embedding of the drain is
a total function (per-entry rejections are absorbed by each entry's catch
handler), so no per-entry failure escapes as a crash. -/
theorem claim_C6_isolation_and_outcomes (o o2 : String → Bool) (s : Store) :
    ((syncPendingStories o s).attempts
      = ((s.filter fun e => decide (e.retryCount < MAX_RETRY_COUNT)).map
          fun e => e.id))
    ∧ ((syncPendingStories o s).attempts = (syncPendingStories o2 s).attempts)
    ∧ ((syncPendingStories o s).succeeded
      = ((s.filter fun e =>
            decide (e.retryCount < MAX_RETRY_COUNT) && o e.id).map
          fun e => e.id))
    ∧ ((syncPendingStories o s).retried
      = ((s.filter fun e =>
            decide (e.retryCount < MAX_RETRY_COUNT) && !(o e.id)).map
          fun e => e.id))
    ∧ ((syncPendingStories o s).dropped
      = ((s.filter fun e => decide (MAX_RETRY_COUNT ≤ e.retryCount)).map
          fun e => e.id)) :=
  ⟨syncPendingStories_attempts o s,
   by rw [syncPendingStories_attempts o s, syncPendingStories_attempts o2 s],
   syncPendingStories_succeeded o s,
   syncPendingStories_retried o s,
   syncPendingStories_dropped o s⟩

/-- C7: removing an id deletes every entry carrying it when present and is a
no-op (not an error) when absent; in both cases all entries with a different
id are kept unchanged, with multiplicity, in their original relative order. -/
theorem claim_C7_remove_frame (s : Store) (id : String) :
    (∀ x ∈ removePendingStory id s, x.id ≠ id)
    ∧ List.Sublist (removePendingStory id s) s
    ∧ (∀ x : PendingStory, x.id ≠ id →
        (removePendingStory id s).count x = s.count x)
    ∧ ((∀ x ∈ s, x.id ≠ id) → removePendingStory id s = s) := by
  refine ⟨?_, List.filter_sublist s, ?_, removePendingStory_of_all_ne id s⟩
  · intro x hx
    have := List.of_mem_filter hx
    simpa using this
  · intro x hx
    unfold removePendingStory
    exact List.count_filter (by simpa using hx)

/-- C7 witness: the removal contract evaluated at a concrete store and an
absent id. -/
theorem claim_C7_witness :
    (∀ x ∈ removePendingStory "b" [sampleEntry "a" 0], x.id ≠ "b")
    ∧ List.Sublist (removePendingStory "b" [sampleEntry "a" 0])
        [sampleEntry "a" 0]
    ∧ (∀ x : PendingStory, x.id ≠ "b" →
        (removePendingStory "b" [sampleEntry "a" 0]).count x
          = [sampleEntry "a" 0].count x)
    ∧ ((∀ x ∈ [sampleEntry "a" 0], x.id ≠ "b") →
        removePendingStory "b" [sampleEntry "a" 0] = [sampleEntry "a" 0]) :=
  claim_C7_remove_frame [sampleEntry "a" 0] "b"

/-- C10: a failing platform reachability probe is degraded to the status
"not connected, not reachable"; the status query returns this value instead
of raising (its embedding is total, the catch block of getNetworkStatus). -/
theorem claim_C10_probe_error_degrades (e : JsError) :
    getNetworkStatus (Except.error e)
      = { isConnected := false, isInternetReachable := false } := rfl

/-- C8 counterexample: the status query passes the probe's two fields through
independently, so a probe report of "not connected but reachable" yields a
returned status with reachable true and connected false, violating the
claimed invariant. -/
theorem claim_C8_counterexample :
    (getNetworkStatus (Except.ok
        { isConnected := some false, isInternetReachable := some true })
      ).isInternetReachable = true
    ∧ (getNetworkStatus (Except.ok
        { isConnected := some false, isInternetReachable := some true })
      ).isConnected = false :=
  ⟨rfl, rfl⟩

/-- C8 (amended): every status delivered to subscribers satisfies the
invariant (both fields equal the cached connected flag), and a status
returned by the query satisfies it whenever the platform probe's report does
— in particular when the probe fails; a probe report with reachable set but
connected unset or false is passed through verbatim and breaks it. -/
theorem claim_C8_amended (c : Bool) (probe : Except JsError NetInfoState)
    (hprobe : ∀ st : NetInfoState, probe = Except.ok st →
        st.isInternetReachable.getD false = true →
        st.isConnected.getD false = true) :
    ((listenerStatus c).isInternetReachable = true →
        (listenerStatus c).isConnected = true)
    ∧ ((getNetworkStatus probe).isInternetReachable = true →
        (getNetworkStatus probe).isConnected = true) := by
  constructor
  · intro h
    simpa [listenerStatus] using h
  · intro h
    cases probe with
    | ok st =>
      have h1 : st.isInternetReachable.getD false = true := by
        simpa [getNetworkStatus, getNetworkStatusTry, Except.map] using h
      have h2 := hprobe st rfl h1
      simpa [getNetworkStatus, getNetworkStatusTry, Except.map] using h2
    | error e =>
      simp [getNetworkStatus, getNetworkStatusTry, Except.map] at h

/-- C8 witness: the amended invariant evaluated at a consistent probe
report. -/
theorem claim_C8_witness :
    (∀ st : NetInfoState,
        (Except.ok { isConnected := some true, isInternetReachable := some true }
          : Except JsError NetInfoState) = Except.ok st →
        st.isInternetReachable.getD false = true →
        st.isConnected.getD false = true)
    ∧ (((listenerStatus true).isInternetReachable = true →
          (listenerStatus true).isConnected = true)
       ∧ ((getNetworkStatus (Except.ok
            { isConnected := some true, isInternetReachable := some true })
          ).isInternetReachable = true →
          (getNetworkStatus (Except.ok
            { isConnected := some true, isInternetReachable := some true })
          ).isConnected = true)) :=
  ⟨fun st h => by cases h; simp,
   claim_C8_amended true _ (fun st h => by cases h; simp)⟩

/-- C9 counterexample: when the same listener function is subscribed twice,
the unsubscribe handle removes one occurrence per call, so calling one handle
a second time is not a no-op — it deregisters the other subscription too. -/
theorem claim_C9_counterexample :
    unsubscribeOnce 7 (unsubscribeOnce 7
        ((subscribeToNetworkStatus 7
            ((subscribeToNetworkStatus 7 [] true).1) true).1))
      ≠ unsubscribeOnce 7
        ((subscribeToNetworkStatus 7
            ((subscribeToNetworkStatus 7 [] true).1) true).1) := by
  decide

/-- C9 (amended): subscribe invokes the listener exactly once immediately
with the status current at registration, the listener is invoked with the
current status on every subsequent notification while registered, the
returned handle deregisters it so later notifications skip it, and calling
the handle a second time is a no-op — provided that listener function was
not already registered (a listener subscribed twice shares identity, and one
handle called twice removes both registrations). -/
theorem claim_C9_amended (l : Nat) (st : Registry) (c c2 : Bool)
    (hnotmem : l ∉ st) :
    ((subscribeToNetworkStatus l st c).2 = [(l, listenerStatus c)])
    ∧ ((l, listenerStatus c2)
        ∈ notifyNetworkListeners (subscribeToNetworkStatus l st c).1 c2)
    ∧ (∀ p ∈ notifyNetworkListeners
          (unsubscribeOnce l (subscribeToNetworkStatus l st c).1) c2,
        p.1 ≠ l)
    ∧ (unsubscribeOnce l
         (unsubscribeOnce l (subscribeToNetworkStatus l st c).1)
        = unsubscribeOnce l (subscribeToNetworkStatus l st c).1) := by
  have herase : unsubscribeOnce l (subscribeToNetworkStatus l st c).1 = st := by
    simp only [subscribeToNetworkStatus, unsubscribeOnce]
    rw [List.erase_append_right _ hnotmem]
    simp
  refine ⟨rfl, ?_, ?_, ?_⟩
  · simp [notifyNetworkListeners, subscribeToNetworkStatus]
  · rw [herase]
    intro p hp
    rcases List.mem_map.mp hp with ⟨x, hx, hpx⟩
    intro hcontra
    apply hnotmem
    have hpx1 : p.1 = x := by rw [← hpx]
    have hxl : x = l := by rw [← hpx1, hcontra]
    exact hxl ▸ hx
  · rw [herase]
    exact List.erase_of_not_mem hnotmem

/-- C9 witness: the amended subscription contract at a fresh listener over an
empty registry. -/
theorem claim_C9_witness :
    (7 ∉ ([] : Registry))
    ∧ (((subscribeToNetworkStatus 7 [] true).2 = [(7, listenerStatus true)])
    ∧ ((7, listenerStatus false)
        ∈ notifyNetworkListeners (subscribeToNetworkStatus 7 [] true).1 false)
    ∧ (∀ p ∈ notifyNetworkListeners
          (unsubscribeOnce 7 (subscribeToNetworkStatus 7 [] true).1) false,
        p.1 ≠ 7)
    ∧ (unsubscribeOnce 7
         (unsubscribeOnce 7 (subscribeToNetworkStatus 7 [] true).1)
        = unsubscribeOnce 7 (subscribeToNetworkStatus 7 [] true).1)) :=
  ⟨by decide, claim_C9_amended 7 [] true false (by decide)⟩

/-- C2: the source has no single-flight guard, so a forced sync running
concurrently with a reconnection drain makes a second remote-write attempt
for the same pending entry. Under the admissible schedule in which both
calls' store reads resolve before either processes its snapshot, one pending
entry receives two remote attempts, both of which succeed — a duplicate
remote record — contradicting the claim that the second call joins or is
dropped. -/
theorem claim_C2_duplicate_attempts :
    ((twoConcurrentDrains (fun _ => true) (fun _ => true)
        [sampleEntry "a" 0]).attempts = ["a", "a"])
    ∧ ((twoConcurrentDrains (fun _ => true) (fun _ => true)
        [sampleEntry "a" 0]).attempts.count "a" = 2)
    ∧ ((twoConcurrentDrains (fun _ => true) (fun _ => true)
        [sampleEntry "a" 0]).succeeded = ["a", "a"]) := by
  decide

/-- C3 counterexample: while online, a direct remote write that fails with a
non-network error (here a permission rejection) is not appended to the
pending store; the caller receives a FIRESTORE_ERROR instead of a local
pending id, refuting the claim for arbitrary failures. -/
theorem claim_C3_counterexample :
    createStory false
        (Except.error { code := "permission-denied",
                        message := "Missing or insufficient permissions" })
        true 5 "r" samplePayload []
      = Except.error { code := "FIRESTORE_ERROR",
                       message := "Failed to create story in database" } := by
  rfl

/-- C3 (amended): while online, if the direct remote write fails with a
network-classified error — code "unavailable" or a message containing
"network", which covers a transition to offline mid-request — the write is
appended to the pending store and the caller receives the local pending id,
which always carries the "pending_" prefix; any other remote failure is
rethrown with no fallback append. -/
theorem claim_C3_amended (e : JsError) (storyData : StoryCreateData)
    (s : Store) (now : Nat) (rand : String)
    (hnet : isNetworkFallbackError e = true) :
    (createStory false (Except.error e) true now rand storyData s
      = Except.ok (pendingIdOf now rand,
          s ++ [{ id := pendingIdOf now rand, storyData := storyData,
                  timestamp := now, retryCount := 0 }]))
    ∧ ∃ rest : String, pendingIdOf now rand = "pending_" ++ rest := by
  constructor
  · simp [createStory, Except.map, hnet, addPendingStoryEx, addPendingStory]
  · exact ⟨toString now ++ "_" ++ rand, rfl⟩

/-- C3 witness: the amended fallback contract at a concrete network error. -/
theorem claim_C3_witness :
    (isNetworkFallbackError
        { code := "unavailable", message := "client is offline" } = true)
    ∧ ((createStory false
          (Except.error { code := "unavailable", message := "client is offline" })
          true 2 "y" samplePayload []
        = Except.ok (pendingIdOf 2 "y",
            [] ++ [{ id := pendingIdOf 2 "y", storyData := samplePayload,
                     timestamp := 2, retryCount := 0 }]))
       ∧ ∃ rest : String, pendingIdOf 2 "y" = "pending_" ++ rest) :=
  ⟨by decide,
   claim_C3_amended { code := "unavailable", message := "client is offline" }
     samplePayload [] 2 "y" (by decide)⟩

/-- C5 counterexample: when the starting store already holds an entry whose
payload deep-equals the input (with retry count 0), append followed by list
yields two entries matching the claimed description, not exactly one. -/
theorem claim_C5_counterexample :
    (((addPendingStory 2 "y" samplePayload [sampleEntry "a" 0]).2).filter
        (fun x => x.storyData == samplePayload && x.retryCount == 0)).length
      = 2 := by
  decide

/-- C5 (amended): provided the generated id is not already present, append
followed by list contains exactly one entry carrying the returned id; that
entry's payload deep-equals the input and its retry count is 0; and the
number of entries whose payload deep-equals the input with retry count 0
grows by exactly one — so it equals one exactly when no such entry
pre-existed. Append returns the new entry's id. -/
theorem claim_C5_amended (now : Nat) (rand : String)
    (storyData : StoryCreateData) (s : Store)
    (hfresh : ∀ x ∈ s, x.id ≠ pendingIdOf now rand) :
    ((addPendingStory now rand storyData s).1 = pendingIdOf now rand)
    ∧ (((addPendingStory now rand storyData s).2.filter
          fun x => x.id = pendingIdOf now rand).length = 1)
    ∧ (∀ x ∈ (addPendingStory now rand storyData s).2,
        x.id = pendingIdOf now rand →
        x.storyData = storyData ∧ x.retryCount = 0)
    ∧ (((addPendingStory now rand storyData s).2.filter
          fun x => x.storyData == storyData && x.retryCount == 0).length
        = ((s.filter
            fun x => x.storyData == storyData && x.retryCount == 0).length)
          + 1) := by
  refine ⟨rfl, ?_, ?_, ?_⟩
  · have hnil : (s.filter fun x => decide (x.id = pendingIdOf now rand)) = [] := by
      rw [List.filter_eq_nil_iff]
      intro x hx
      simpa using hfresh x hx
    simp [addPendingStory, List.filter_append, hnil]
  · intro x hx hid
    rcases List.mem_append.mp hx with hx | hx
    · exact absurd hid (hfresh x hx)
    · have : x = { id := pendingIdOf now rand, storyData := storyData,
                   timestamp := now, retryCount := 0 } := by simpa using hx
      subst this
      exact ⟨rfl, rfl⟩
  · simp [addPendingStory, List.filter_append]

/-- C5 witness: the amended round-trip at a concrete store holding an entry
with the same payload. -/
theorem claim_C5_witness :
    (∀ x ∈ [sampleEntry "a" 0], x.id ≠ pendingIdOf 2 "y")
    ∧ (((addPendingStory 2 "y" samplePayload [sampleEntry "a" 0]).1
          = pendingIdOf 2 "y")
    ∧ (((addPendingStory 2 "y" samplePayload [sampleEntry "a" 0]).2.filter
          fun x => x.id = pendingIdOf 2 "y").length = 1)
    ∧ (∀ x ∈ (addPendingStory 2 "y" samplePayload [sampleEntry "a" 0]).2,
        x.id = pendingIdOf 2 "y" →
        x.storyData = samplePayload ∧ x.retryCount = 0)
    ∧ (((addPendingStory 2 "y" samplePayload [sampleEntry "a" 0]).2.filter
          fun x => x.storyData == samplePayload && x.retryCount == 0).length
        = (([sampleEntry "a" 0].filter
            fun x => x.storyData == samplePayload && x.retryCount == 0).length)
          + 1)) :=
  ⟨by decide, claim_C5_amended 2 "y" samplePayload [sampleEntry "a" 0] (by decide)⟩

/-- C1 counterexample: an entry at retryCount = MAX_RETRY_COUNT - 1 whose
remote write fails in a drain is attempted and then left in the store with
retryCount = MAX_RETRY_COUNT — it is not removed by the same operation that
incremented it to the ceiling. -/
theorem claim_C1_counterexample :
    ((syncPendingStories (fun _ => false) [sampleEntry "a" 2]).attempts = ["a"])
    ∧ ((syncPendingStories (fun _ => false) [sampleEntry "a" 2]).store
        = [sampleEntry "a" 3])
    ∧ ((sampleEntry "a" 2).retryCount = MAX_RETRY_COUNT - 1) := by
  decide

/-- C1 (amended): an entry at retryCount = MAX_RETRY_COUNT - 1 whose remote
write fails in a drain stays queued, with retryCount = MAX_RETRY_COUNT, at
the end of that drain; any next drain drops it and removes it from the store
without a remote attempt; and no later sequence of drains ever attempts its
id again — so the entry receives at most MAX_RETRY_COUNT remote attempts in
total. -/
theorem claim_C1_amended (s : Store) (e : PendingStory) (o : String → Bool)
    (hmem : e ∈ s) (hnd : (s.map fun x => x.id).Nodup)
    (hrc : e.retryCount = MAX_RETRY_COUNT - 1) (hfail : o e.id = false) :
    (((syncPendingStories o s).store.filter fun x => x.id = e.id)
        = [{ e with retryCount := MAX_RETRY_COUNT }])
    ∧ (∀ o2 : String → Bool,
        e.id ∈ (syncPendingStories o2 (syncPendingStories o s).store).dropped
        ∧ e.id ∉ (syncPendingStories o2 (syncPendingStories o s).store).attempts
        ∧ ∀ x ∈ (syncPendingStories o2 (syncPendingStories o s).store).store,
            x.id ≠ e.id)
    ∧ (∀ os : List (String → Bool),
        e.id ∉ (drainSequence os (syncPendingStories o s).store).2) := by
  have hnle : ¬ MAX_RETRY_COUNT ≤ e.retryCount := by
    rw [hrc]; decide
  have hfe : entryFate o e = some { e with retryCount := MAX_RETRY_COUNT } := by
    have hsum : e.retryCount + 1 = MAX_RETRY_COUNT := by rw [hrc]; decide
    rw [entryFate, if_neg hnle, if_neg (by simp [hfail]), hsum]
  have h1 : ((syncPendingStories o s).store.filter fun x => x.id = e.id)
      = [{ e with retryCount := MAX_RETRY_COUNT }] := by
    rw [syncPendingStories_store o s hnd,
        filterMap_fate_filter_id o s e hnd hmem, hfe]
    rfl
  have hexh : ∀ x ∈ (syncPendingStories o s).store,
      x.id = e.id → MAX_RETRY_COUNT ≤ x.retryCount := by
    intro x hx hid
    have hxf : x ∈ ((syncPendingStories o s).store.filter fun x => x.id = e.id) :=
      List.mem_filter.mpr ⟨hx, decide_eq_true hid⟩
    rw [h1] at hxf
    have hxe : x = { e with retryCount := MAX_RETRY_COUNT } := by
      simpa using hxf
    rw [hxe]
  have hmem1 : { e with retryCount := MAX_RETRY_COUNT }
      ∈ (syncPendingStories o s).store := by
    have hin : { e with retryCount := MAX_RETRY_COUNT }
        ∈ ((syncPendingStories o s).store.filter fun x => x.id = e.id) := by
      rw [h1]
      exact List.mem_cons_self _ _
    exact List.mem_of_mem_filter hin
  have hnd1 := syncPendingStories_store_nodup o s hnd
  refine ⟨h1, ?_, ?_⟩
  · intro o2
    refine ⟨?_, no_attempt_of_exhausted o2 _ e.id hexh, ?_⟩
    · rw [syncPendingStories_dropped]
      apply List.mem_map.mpr
      refine ⟨{ e with retryCount := MAX_RETRY_COUNT }, ?_, rfl⟩
      apply List.mem_filter.mpr
      exact ⟨hmem1, decide_eq_true (le_refl MAX_RETRY_COUNT)⟩
    · intro x hx hid
      have hfe2 : entryFate o2 { e with retryCount := MAX_RETRY_COUNT }
          = none := by
        simp [entryFate]
      have h2 := filterMap_fate_filter_id o2 _
        { e with retryCount := MAX_RETRY_COUNT } hnd1 hmem1
      rw [hfe2] at h2
      have hxf : x ∈ (((syncPendingStories o s).store.filterMap
          (entryFate o2)).filter
            fun y => y.id = ({ e with retryCount := MAX_RETRY_COUNT }
              : PendingStory).id) := by
        apply List.mem_filter.mpr
        refine ⟨?_, decide_eq_true (by simpa using hid)⟩
        rw [← syncPendingStories_store o2 _ hnd1]
        exact hx
      rw [h2] at hxf
      cases hxf
  · intro os
    exact drainSequence_no_attempt e.id os _ hexh

/-- C1 witness: the amended retry-ceiling behaviour at a concrete one-entry
store whose remote write fails. -/
theorem claim_C1_witness :
    ((sampleEntry "a" 2) ∈ [sampleEntry "a" 2]
     ∧ (([sampleEntry "a" 2].map fun x => x.id).Nodup)
     ∧ ((sampleEntry "a" 2).retryCount = MAX_RETRY_COUNT - 1)
     ∧ ((fun _ : String => false) (sampleEntry "a" 2).id = false))
    ∧ ((((syncPendingStories (fun _ => false) [sampleEntry "a" 2]).store.filter
          fun x => x.id = (sampleEntry "a" 2).id)
        = [{ sampleEntry "a" 2 with retryCount := MAX_RETRY_COUNT }])
    ∧ (∀ o2 : String → Bool,
        (sampleEntry "a" 2).id ∈ (syncPendingStories o2
          (syncPendingStories (fun _ => false) [sampleEntry "a" 2]).store).dropped
        ∧ (sampleEntry "a" 2).id ∉ (syncPendingStories o2
          (syncPendingStories (fun _ => false) [sampleEntry "a" 2]).store).attempts
        ∧ ∀ x ∈ (syncPendingStories o2
            (syncPendingStories (fun _ => false) [sampleEntry "a" 2]).store).store,
            x.id ≠ (sampleEntry "a" 2).id)
    ∧ (∀ os : List (String → Bool),
        (sampleEntry "a" 2).id ∉ (drainSequence os
          (syncPendingStories (fun _ => false) [sampleEntry "a" 2]).store).2)) :=
  ⟨⟨by decide, by decide, by decide, rfl⟩,
   claim_C1_amended [sampleEntry "a" 2] (sampleEntry "a" 2) (fun _ => false)
     (by decide) (by decide) (by decide) rfl⟩

/-- C6 witness: the isolation and reporting contract at a concrete store and
a pair of oracles differing on every entry. -/
theorem claim_C6_witness :
    ((syncPendingStories (fun _ => false) [sampleEntry "a" 0]).attempts
      = (([sampleEntry "a" 0].filter
            fun e => decide (e.retryCount < MAX_RETRY_COUNT)).map
          fun e => e.id))
    ∧ ((syncPendingStories (fun _ => false) [sampleEntry "a" 0]).attempts
      = (syncPendingStories (fun _ => true) [sampleEntry "a" 0]).attempts)
    ∧ ((syncPendingStories (fun _ => false) [sampleEntry "a" 0]).succeeded
      = (([sampleEntry "a" 0].filter
            fun e => decide (e.retryCount < MAX_RETRY_COUNT)
              && (fun _ : String => false) e.id).map
          fun e => e.id))
    ∧ ((syncPendingStories (fun _ => false) [sampleEntry "a" 0]).retried
      = (([sampleEntry "a" 0].filter
            fun e => decide (e.retryCount < MAX_RETRY_COUNT)
              && !((fun _ : String => false) e.id)).map
          fun e => e.id))
    ∧ ((syncPendingStories (fun _ => false) [sampleEntry "a" 0]).dropped
      = (([sampleEntry "a" 0].filter
            fun e => decide (MAX_RETRY_COUNT ≤ e.retryCount)).map
          fun e => e.id)) :=
  claim_C6_isolation_and_outcomes (fun _ => false) (fun _ => true)
    [sampleEntry "a" 0]

/-- C10 witness: a concrete probe failure degrades to the offline status. -/
theorem claim_C10_witness :
    getNetworkStatus (Except.error { code := "E", message := "probe failed" })
      = { isConnected := false, isInternetReachable := false } :=
  claim_C10_probe_error_degrades { code := "E", message := "probe failed" }

end StoryApp
